import Mathlib

/-!
Shallow embedding of `src/main.cpp` (bump-pointer arena allocator
`CustomAllocator<T>` and the dynamic array `CustomContainer<T, Allocator>`).

Modelling choices, faithful to the source:
* Raw memory is a `Heap`: a list of blocks, each block a list of slots
  holding `Option Int` (`some v` = a live constructed object with value `v`,
  `none` = raw / destroyed storage).  `::operator new` appends a fresh block;
  `::operator delete` only marks the block id as freed (contents are kept, so
  the model stays a total function; no claim depends on the contents of a
  freed block).
* A pointer is `Ptr.null` or a block id plus an element offset.  The source
  always stores block-start pointers in `data_`, so the range check
  `p < data_ || p >= data_ + capacity_` becomes: same block and
  offset `< capacity`; a pointer into a different block is outside the range
  (distinct heap blocks occupy disjoint address ranges).
* `size_t` is modelled as `Nat`; no scenario exercised by the claims comes
  anywhere near wrap-around.
* Exceptions (`throw std::runtime_error`) become `Except String` results; for
  container operations the throw carries the heap and the container fields as
  they stand when the exception escapes (in C++ the object survives a throw
  with its already-mutated fields).
* Element type is fixed to `Int`, matching the `int` instantiations in `main`.
-/

/-- A pointer: null, or block id plus element offset into that block. -/
inductive Ptr where
  | null : Ptr
  | mk (block : Nat) (off : Nat) : Ptr
deriving DecidableEq, Repr

/-- Pointer arithmetic `p + k` (element offsets, as in C++). -/
def ptrAdd (p : Ptr) (k : Nat) : Ptr :=
  match p with
  | Ptr.null => Ptr.null
  | Ptr.mk b o => Ptr.mk b (o + k)

/-- The raw memory: `blocks` indexed by block id (allocation order), and the
ids already released by `::operator delete`. -/
structure Heap where
  blocks : List (List (Option Int))
  freed : List Nat
deriving DecidableEq, Repr

/-- Read one slot; reads through null or out of range give `none`. -/
def Heap.read (h : Heap) (p : Ptr) : Option Int :=
  match p with
  | Ptr.null => none
  | Ptr.mk b o => (h.blocks.getD b []).getD o none

/-- Write one slot (no-op through null or out of range, as `List.set`). -/
def Heap.write (h : Heap) (p : Ptr) (v : Option Int) : Heap :=
  match p with
  | Ptr.null => h
  | Ptr.mk b o => { h with blocks := h.blocks.set b ((h.blocks.getD b []).set o v) }

/-- `::operator new(sz * sizeof(T))`: a fresh block of `sz` raw slots. -/
def Heap.opNew (h : Heap) (sz : Nat) : Heap × Ptr :=
  ({ blocks := h.blocks ++ [List.replicate sz none], freed := h.freed },
   Ptr.mk h.blocks.length 0)

/-- `::operator delete(p)`: marks the block freed (contents retained so the
model is total; nothing may rely on them afterwards). -/
def Heap.opDelete (h : Heap) (p : Ptr) : Heap :=
  match p with
  | Ptr.null => h
  | Ptr.mk b _ => { h with blocks := h.blocks, freed := b :: h.freed }

/-- Placement-new of value `v` at `p` (`construct`, main.cpp:44-47). -/
def constructAt (h : Heap) (p : Ptr) (v : Int) : Heap :=
  h.write p (some v)

/-- In-place destructor call at `p` (`destroy`, main.cpp:49-52). -/
def destroyAt (h : Heap) (p : Ptr) : Heap :=
  h.write p none

/-- `std::uninitialized_move(src, src + n, dest)`: moves (for `int`: copies)
`n` slots in ascending order; the moved-from source slots keep their value. -/
def uninitMove : Heap → Ptr → Ptr → Nat → Heap
  | h, _, _, 0 => h
  | h, src, dest, Nat.succ n =>
      uninitMove (h.write dest (h.read src)) (ptrAdd src 1) (ptrAdd dest 1) n

/-- Destroys the `n` slots starting at `p` in ascending order (the loop in
`CustomAllocator::clear` / `CustomContainer::clear`). -/
def destroyRange : Heap → Ptr → Nat → Heap
  | h, _, 0 => h
  | h, p, Nat.succ n => destroyRange (h.write p none) (ptrAdd p 1) n

/-- State of a `CustomAllocator<int>` (main.cpp:6-95): fields `data_`,
`capacity_`, `used_`. -/
structure CustomAllocator where
  data : Ptr
  capacity : Nat
  used : Nat
deriving DecidableEq, Repr

/-- Constructor (main.cpp:11-13): obtains a buffer of `capacity` slots,
`used_ = 0`. -/
def CustomAllocator.new (h : Heap) (capacity : Nat) : Heap × CustomAllocator :=
  ((h.opNew capacity).1, { data := (h.opNew capacity).2, capacity := capacity, used := 0 })

/-- The range check of `deallocate` (main.cpp:38): `p` is inside
`[data_, data_ + capacity_)`.  `data_` is always a block-start pointer, so
this is: same block and offset below `capacity`. -/
def CustomAllocator.ownsPtr (a : CustomAllocator) (p : Ptr) : Bool :=
  match p, a.data with
  | Ptr.mk pb po, Ptr.mk db d0 => pb = db && d0 ≤ po && po < d0 + a.capacity
  | _, _ => false

/-- `CustomAllocator::clear` (main.cpp:84-91): if `data_` is non-null,
destroys the first `used_` slots and resets `used_ = 0`. -/
def CustomAllocator.clear (h : Heap) (a : CustomAllocator) : Heap × CustomAllocator :=
  if a.data = Ptr.null then (h, a)
  else (destroyRange h a.data a.used, { a with used := 0 })

/-- `CustomAllocator::resize` (main.cpp:70-82): guard, fresh buffer,
`std::uninitialized_move` of the first `used_` slots, `clear()` (which also
resets `used_` to 0), release of the old buffer, adoption of the new
buffer and capacity. -/
def CustomAllocator.resize (h : Heap) (a : CustomAllocator) (new_capacity : Nat) :
    Except String (Heap × CustomAllocator) :=
  if new_capacity ≤ a.used then
    Except.error "New capacity must be greater than the number of used elements"
  else
    let hp := h.opNew new_capacity
    let h2 := uninitMove hp.1 a.data hp.2 a.used
    let hc := CustomAllocator.clear h2 a
    let h3 := Heap.opDelete hc.1 a.data
    Except.ok (h3, { hc.2 with data := hp.2, capacity := new_capacity })

/-- `CustomAllocator::allocate` (main.cpp:27-34): grow when
`used_ + n > capacity_`, then return `data_ + used_` and advance `used_`. -/
def CustomAllocator.allocate (h : Heap) (a : CustomAllocator) (n : Nat) :
    Except String (Heap × CustomAllocator × Ptr) :=
  if a.capacity < a.used + n then
    match CustomAllocator.resize h a (max (a.capacity * 2) (a.used + n)) with
    | Except.error msg => Except.error msg
    | Except.ok (h1, a1) =>
        Except.ok (h1, { a1 with used := a1.used + n }, ptrAdd a1.data a1.used)
  else
    Except.ok (h, { a with used := a.used + n }, ptrAdd a.data a.used)

/-- `CustomAllocator::deallocate` (main.cpp:36-42): early return on null;
ownership-range check; otherwise no effect at all. -/
def CustomAllocator.deallocate (h : Heap) (a : CustomAllocator) (p : Ptr) (n : Nat) :
    Except String (Heap × CustomAllocator) :=
  if p = Ptr.null then Except.ok (h, a)
  else if ¬ a.ownsPtr p then
    Except.error "Attempted to deallocate memory not owned by allocator"
  else Except.ok (h, a)

/-- `CustomAllocator::construct` (main.cpp:44-47): placement new; the
allocator's own fields are untouched. -/
def CustomAllocator.construct (h : Heap) (a : CustomAllocator) (p : Ptr) (v : Int) :
    Heap × CustomAllocator :=
  (constructAt h p v, a)

/-- `CustomAllocator::destroy` (main.cpp:49-52): in-place destructor; the
allocator's own fields are untouched. -/
def CustomAllocator.destroy (h : Heap) (a : CustomAllocator) (p : Ptr) :
    Heap × CustomAllocator :=
  (destroyAt h p, a)

/-- `operator==` (main.cpp:60): unconditionally true. -/
def CustomAllocator.eqOp (_ : CustomAllocator) (_ : CustomAllocator) : Bool := true

/-- `operator!=` (main.cpp:61): unconditionally false. -/
def CustomAllocator.neOp (_ : CustomAllocator) (_ : CustomAllocator) : Bool := false

/-- The allocator invariant of the spec: `0 <= used <= capacity` (the lower
bound is automatic for `Nat`). -/
abbrev allocInv (a : CustomAllocator) : Prop := a.used ≤ a.capacity

/-- The implicit allocator interface `CustomContainer` consumes (the
template parameter `Allocator`): an `allocate`/`deallocate` pair over an
allocator state of type `A`.  `construct`/`destroy` are placement new /
in-place destructor for both allocators in the source, so the container
model uses `constructAt`/`destroyAt` directly. -/
structure AllocOps (A : Type) where
  allocate : Heap → A → Nat → Except String (Heap × A × Ptr)
  deallocate : Heap → A → Ptr → Nat → Except String (Heap × A)

/-- The `CustomAllocator<int>` instantiation of the interface. -/
def customAllocOps : AllocOps CustomAllocator :=
  { allocate := CustomAllocator.allocate, deallocate := CustomAllocator.deallocate }

/-- The `std::allocator<int>` instantiation (the container's default
template argument, main.cpp:97): allocation obtains a fresh block,
deallocation releases it, neither ever throws in the modelled scenarios. -/
def stdAllocOps : AllocOps Unit :=
  { allocate := fun h _ n => Except.ok ((h.opNew n).1, (), (h.opNew n).2),
    deallocate := fun h _ p _ => Except.ok (h.opDelete p, ()) }

/-- State of a `CustomContainer<int, Allocator>` (main.cpp:97-150): fields
`alloc_`, `data_`, `size_`, `capacity_`, in declaration order. -/
structure CustomContainer (A : Type) where
  alloc : A
  data : Ptr
  size : Nat
  capacity : Nat
deriving DecidableEq, Repr

/-- `begin()` (main.cpp:121). -/
def CustomContainer.begin {A : Type} (c : CustomContainer A) : Ptr := c.data

/-- `end()` (main.cpp:122). -/
def CustomContainer.endPtr {A : Type} (c : CustomContainer A) : Ptr :=
  ptrAdd c.data c.size

/-- Iterating from `begin()` to `end()`: the slot contents at
`data_ + 0, ..., data_ + size_ - 1` in order. -/
def CustomContainer.toList {A : Type} (h : Heap) (c : CustomContainer A) :
    List (Option Int) :=
  (List.range c.size).map (fun i => h.read (ptrAdd c.begin i))

/-- Result of a container operation: normal return, or a propagating C++
exception carrying the heap and the container fields as they stand when the
exception escapes (the C++ object outlives the throw with its
already-mutated fields). -/
inductive CCResult (A : Type) where
  | ok (h : Heap) (c : CustomContainer A) : CCResult A
  | thrown (msg : String) (h : Heap) (c : CustomContainer A) : CCResult A
deriving DecidableEq, Repr

/-- Constructor (main.cpp:105-106): member-init order is `alloc_` (given
here already constructed), then `data_ = alloc_.allocate(initial_capacity)`,
`size_ = 0`, `capacity_ = initial_capacity`. -/
def CustomContainer.mkNew {A : Type} (ops : AllocOps A) (h : Heap) (a0 : A)
    (initial_capacity : Nat) : Except String (Heap × CustomContainer A) :=
  match ops.allocate h a0 initial_capacity with
  | Except.error msg => Except.error msg
  | Except.ok (h1, a1, p) =>
      Except.ok (h1, { alloc := a1, data := p, size := 0, capacity := initial_capacity })

/-- `CustomContainer::resize` (main.cpp:135-142): fresh storage from the
allocator, `std::uninitialized_move` of the `size_` live elements, `clear()`
(which destroys them and resets `size_` to 0), `deallocate` of the old
storage, adoption of the new storage and capacity.  A throw from the
allocator escapes with the fields as mutated so far. -/
def CustomContainer.resize {A : Type} (ops : AllocOps A) (h : Heap)
    (c : CustomContainer A) (new_capacity : Nat) : CCResult A :=
  match ops.allocate h c.alloc new_capacity with
  | Except.error msg => CCResult.thrown msg h c
  | Except.ok (h1, a1, new_data) =>
      let h2 := uninitMove h1 c.data new_data c.size
      let h3 := destroyRange h2 c.data c.size
      let c1 : CustomContainer A := { c with alloc := a1, size := 0 }
      match ops.deallocate h3 c1.alloc c.data c.capacity with
      | Except.error msg => CCResult.thrown msg h3 c1
      | Except.ok (h4, a2) =>
          CCResult.ok h4 { c1 with alloc := a2, data := new_data, capacity := new_capacity }

/-- `CustomContainer::push_back` (main.cpp:113-119): grow to
`capacity_ * 2` when full, then construct the value at `data_ + size_` and
increment `size_`. -/
def CustomContainer.push_back {A : Type} (ops : AllocOps A) (h : Heap)
    (c : CustomContainer A) (v : Int) : CCResult A :=
  if c.size = c.capacity then
    match CustomContainer.resize ops h c (c.capacity * 2) with
    | CCResult.thrown msg h1 c1 => CCResult.thrown msg h1 c1
    | CCResult.ok h1 c1 =>
        CCResult.ok (constructAt h1 (ptrAdd c1.data c1.size) v)
          { c1 with size := c1.size + 1 }
  else
    CCResult.ok (constructAt h (ptrAdd c.data c.size) v)
      { c with size := c.size + 1 }

/-- A sequence of `push_back` calls; a throw aborts the sequence and
propagates (as in the `for` loops of `main`). -/
def pushMany {A : Type} (ops : AllocOps A) : Heap → CustomContainer A → List Int → CCResult A
  | h, c, [] => CCResult.ok h c
  | h, c, v :: vs =>
      match CustomContainer.push_back ops h c v with
      | CCResult.ok h1 c1 => pushMany ops h1 c1 vs
      | CCResult.thrown msg h1 c1 => CCResult.thrown msg h1 c1

/-- `CustomContainer<int, CustomAllocator<int>> c(initial_capacity)`
(main.cpp:193): the member allocator is default-constructed (capacity 10),
then the container's buffer is requested from it. -/
def mkCustomContainer (h : Heap) (initial_capacity : Nat) :
    Except String (Heap × CustomContainer CustomAllocator) :=
  CustomContainer.mkNew customAllocOps (CustomAllocator.new h 10).1
    (CustomAllocator.new h 10).2 initial_capacity

/-- `CustomContainer<int> c` (main.cpp:182): default `std::allocator`. -/
def mkStdContainer (h : Heap) (initial_capacity : Nat) :
    Except String (Heap × CustomContainer Unit) :=
  CustomContainer.mkNew stdAllocOps h () initial_capacity

/-- Did the operation return normally? -/
def CCResult.succeeded {A : Type} : CCResult A → Bool
  | CCResult.ok _ _ => true
  | CCResult.thrown _ _ _ => false

/-- The propagated exception message, if any. -/
def CCResult.errMsg {A : Type} : CCResult A → Option String
  | CCResult.ok _ _ => none
  | CCResult.thrown msg _ _ => some msg

/-- `size()` of the carried container state. -/
def CCResult.csize {A : Type} : CCResult A → Nat
  | CCResult.ok _ c => c.size
  | CCResult.thrown _ _ c => c.size

/-- `capacity_` of the carried container state. -/
def CCResult.ccap {A : Type} : CCResult A → Nat
  | CCResult.ok _ c => c.capacity
  | CCResult.thrown _ _ c => c.capacity

/-- Iteration over the carried container state. -/
def CCResult.listed {A : Type} : CCResult A → List (Option Int)
  | CCResult.ok h c => c.toList h
  | CCResult.thrown _ h c => c.toList h

/-- The carried heap. -/
def CCResult.heapOf {A : Type} : CCResult A → Heap
  | CCResult.ok h _ => h
  | CCResult.thrown _ h _ => h

/-- The integers `0, 1, ..., k-1`, the values appended in `main`. -/
def intsUpTo (k : Nat) : List Int :=
  (List.range k).map (fun n => (n : Int))

/-- `n` successive calls `allocate(1)` (the allocation pattern the ordered
map in `main` produces: one node per insertion). -/
def repeatAlloc : Heap → CustomAllocator → Nat → Except String (Heap × CustomAllocator)
  | h, a, 0 => Except.ok (h, a)
  | h, a, Nat.succ n =>
      match CustomAllocator.allocate h a 1 with
      | Except.error msg => Except.error msg
      | Except.ok (h1, a1, _) => repeatAlloc h1 a1 n

/-- The heap after a container construction with capacity 10 from an empty
heap: one raw block of 10 slots (checked against the constructors by the
first conjunct of the scenario theorems). -/
def hInit10 : Heap := ⟨[List.replicate 10 none], []⟩

/-- The `CustomContainer<int, CustomAllocator<int>>(10)` state right after
construction (checked against `mkCustomContainer` by `rfl`): the member
allocator has handed its whole buffer to the container. -/
def cInitCustom : CustomContainer CustomAllocator :=
  ⟨⟨Ptr.mk 0 0, 10, 10⟩, Ptr.mk 0 0, 0, 10⟩

/-- The `CustomContainer<int>` (default `std::allocator`) state right after
construction (checked against `mkStdContainer` by `rfl`). -/
def cInitStd : CustomContainer Unit := ⟨(), Ptr.mk 0 0, 0, 10⟩

theorem write_blocks_length (h : Heap) (p : Ptr) (v : Option Int) :
    (Heap.write h p v).blocks.length = h.blocks.length := by
  cases p <;> simp [Heap.write]

theorem uninitMove_blocks_length :
    ∀ (n : Nat) (h : Heap) (src dest : Ptr),
      (uninitMove h src dest n).blocks.length = h.blocks.length
  | 0, _, _, _ => rfl
  | Nat.succ n, h, src, dest => by
      rw [uninitMove, uninitMove_blocks_length n, write_blocks_length]

theorem destroyRange_blocks_length :
    ∀ (n : Nat) (h : Heap) (p : Ptr),
      (destroyRange h p n).blocks.length = h.blocks.length
  | 0, _, _ => rfl
  | Nat.succ n, h, p => by
      rw [destroyRange, destroyRange_blocks_length n, write_blocks_length]

theorem clear_fst_blocks_length (h : Heap) (a : CustomAllocator) :
    ((CustomAllocator.clear h a).1).blocks.length = h.blocks.length := by
  unfold CustomAllocator.clear
  split <;> simp [destroyRange_blocks_length]

theorem opDelete_blocks (h : Heap) (p : Ptr) :
    (Heap.opDelete h p).blocks = h.blocks := by
  cases p <;> rfl

theorem opNew_fst_blocks_length (h : Heap) (sz : Nat) :
    ((Heap.opNew h sz).1).blocks.length = h.blocks.length + 1 := by
  simp [Heap.opNew]

theorem ownsPtr_null (a : CustomAllocator) : a.ownsPtr Ptr.null = false := by
  rcases a with ⟨d, c, u⟩
  cases d <;> rfl

theorem resize_ok_shape (h : Heap) (a : CustomAllocator) (nc : Nat)
    (h' : Heap) (a' : CustomAllocator)
    (he : CustomAllocator.resize h a nc = Except.ok (h', a')) :
    a'.used ≤ a.used ∧ a'.capacity = nc ∧ a.used < nc := by
  unfold CustomAllocator.resize at he
  by_cases hg : nc ≤ a.used
  · rw [if_pos hg] at he
    exact absurd he (by simp)
  · rw [if_neg hg] at he
    unfold CustomAllocator.clear at he
    by_cases hd : a.data = Ptr.null
    · simp only [hd, reduceIte, Except.ok.injEq, Prod.mk.injEq] at he
      obtain ⟨-, he2⟩ := he
      subst he2
      exact ⟨le_refl _, rfl, by omega⟩
    · simp only [hd, reduceIte, Except.ok.injEq, Prod.mk.injEq] at he
      obtain ⟨-, he2⟩ := he
      subst he2
      exact ⟨Nat.zero_le _, rfl, by omega⟩

theorem deallocate_ok_shape (h : Heap) (a : CustomAllocator) (p : Ptr) (n : Nat)
    (h' : Heap) (a' : CustomAllocator)
    (he : CustomAllocator.deallocate h a p n = Except.ok (h', a')) :
    h' = h ∧ a' = a := by
  unfold CustomAllocator.deallocate at he
  by_cases hp : p = Ptr.null
  · rw [if_pos hp] at he
    simp only [Except.ok.injEq, Prod.mk.injEq] at he
    exact ⟨he.1.symm, he.2.symm⟩
  · rw [if_neg hp] at he
    by_cases ho : a.ownsPtr p
    · rw [if_neg (not_not_intro ho)] at he
      simp only [Except.ok.injEq, Prod.mk.injEq] at he
      exact ⟨he.1.symm, he.2.symm⟩
    · rw [if_pos ho] at he
      exact absurd he (by simp)

/-- C9: for every pair of allocator instances, `operator==` returns true and
`operator!=` returns false, regardless of capacities, cursors, or growth
histories. -/
theorem claim_C9_equality_always_true (a b : CustomAllocator) :
    CustomAllocator.eqOp a b = true ∧ CustomAllocator.neOp a b = false :=
  ⟨rfl, rfl⟩

/-- C10: for every allocator state and every `n`, `deallocate(nullptr, n)`
returns normally (no error) and leaves the heap and the allocator state
unchanged, even though a null pointer is outside the buffer's range. -/
theorem claim_C10_deallocate_null_is_noop (h : Heap) (a : CustomAllocator) (n : Nat) :
    CustomAllocator.deallocate h a Ptr.null n = Except.ok (h, a) := by
  unfold CustomAllocator.deallocate
  rw [if_pos rfl]

/-- C7: `deallocate(p, n)` on a pointer inside the current buffer's range
leaves the allocator state entirely unchanged (no cursor decrement, no
capacity or buffer change) and the heap untouched: no reclamation happens. -/
theorem claim_C7_deallocate_never_reclaims (h : Heap) (a : CustomAllocator)
    (p : Ptr) (n : Nat) (hown : a.ownsPtr p = true) :
    CustomAllocator.deallocate h a p n = Except.ok (h, a) := by
  have hp : p ≠ Ptr.null := by
    intro hnull
    rw [hnull, ownsPtr_null] at hown
    exact absurd hown (by simp)
  unfold CustomAllocator.deallocate
  rw [if_neg hp, if_neg (not_not_intro (by rw [hown]))]

/-- Witness for C7: a concrete in-range pointer (offset 5 of a capacity-10
buffer), concrete `n`; the state comes back exactly unchanged. -/
theorem claim_C7_witness :
    CustomAllocator.deallocate ⟨[List.replicate 10 none], []⟩ ⟨Ptr.mk 0 0, 10, 3⟩
        (Ptr.mk 0 5) 2
      = Except.ok (⟨[List.replicate 10 none], []⟩, ⟨Ptr.mk 0 0, 10, 3⟩) :=
  claim_C7_deallocate_never_reclaims ⟨[List.replicate 10 none], []⟩
    ⟨Ptr.mk 0 0, 10, 3⟩ (Ptr.mk 0 5) 2 (by decide)

/-- Counterexample to C4 as stated: the null pointer lies outside the
current buffer's range, yet `deallocate(nullptr, 4)` does not raise (the
source returns early on null, main.cpp:37), so "a pointer outside that
range always raises" is false. -/
theorem claim_C4_counterexample :
    CustomAllocator.deallocate ⟨[List.replicate 10 none], []⟩ ⟨Ptr.mk 0 0, 10, 0⟩
        Ptr.null 4
      = Except.ok (⟨[List.replicate 10 none], []⟩, ⟨Ptr.mk 0 0, 10, 0⟩)
    ∧ CustomAllocator.ownsPtr ⟨Ptr.mk 0 0, 10, 0⟩ Ptr.null = false :=
  ⟨rfl, rfl⟩

/-- C4 as amended: `deallocate(p, n)` raises an ownership error if and only
if `p` is non-null and lies outside the current buffer's range
`[buffer, buffer + capacity)`; an in-range pointer never raises, and a null
pointer returns normally. -/
theorem claim_C4_error_iff_nonnull_outside (h : Heap) (a : CustomAllocator)
    (p : Ptr) (n : Nat) :
    (∃ msg, CustomAllocator.deallocate h a p n = Except.error msg)
      ↔ (p ≠ Ptr.null ∧ a.ownsPtr p = false) := by
  unfold CustomAllocator.deallocate
  by_cases hp : p = Ptr.null
  · rw [if_pos hp]
    simp [hp]
  · rw [if_neg hp]
    by_cases ho : a.ownsPtr p
    · rw [if_neg (not_not_intro ho)]
      simp [hp, ho]
    · rw [if_pos ho]
      simp [hp, ho]

/-- C8: the invariant `0 <= used <= capacity` holds for a freshly
constructed allocator and is preserved by every allocator operation:
`allocate`, `deallocate`, `construct`, `destroy`, the internal growth step
`resize`, and `clear` (the lower bound is automatic over `Nat`). -/
theorem claim_C8_invariant_preserved :
    (∀ (h : Heap) (c : Nat), allocInv (CustomAllocator.new h c).2)
  ∧ (∀ (h : Heap) (a : CustomAllocator) (n : Nat) (h' : Heap)
        (a' : CustomAllocator) (p : Ptr),
        CustomAllocator.allocate h a n = Except.ok (h', a', p) → allocInv a')
  ∧ (∀ (h : Heap) (a : CustomAllocator) (p : Ptr) (n : Nat) (h' : Heap)
        (a' : CustomAllocator), allocInv a →
        CustomAllocator.deallocate h a p n = Except.ok (h', a') → allocInv a')
  ∧ (∀ (h : Heap) (a : CustomAllocator) (nc : Nat) (h' : Heap)
        (a' : CustomAllocator),
        CustomAllocator.resize h a nc = Except.ok (h', a') → allocInv a')
  ∧ (∀ (h : Heap) (a : CustomAllocator), allocInv a →
        allocInv (CustomAllocator.clear h a).2)
  ∧ (∀ (h : Heap) (a : CustomAllocator) (p : Ptr) (v : Int), allocInv a →
        allocInv (CustomAllocator.construct h a p v).2)
  ∧ (∀ (h : Heap) (a : CustomAllocator) (p : Ptr), allocInv a →
        allocInv (CustomAllocator.destroy h a p).2) := by
  refine ⟨?_, ?_, ?_, ?_, ?_, ?_, ?_⟩
  · intro h c
    exact Nat.zero_le _
  · intro h a n h' a' p he
    unfold CustomAllocator.allocate at he
    by_cases hc : a.capacity < a.used + n
    · rw [if_pos hc] at he
      cases hres : CustomAllocator.resize h a (max (a.capacity * 2) (a.used + n)) with
      | error msg =>
          rw [hres] at he
          exact absurd he (by simp)
      | ok pair =>
          obtain ⟨h1, a1⟩ := pair
          rw [hres] at he
          simp only [Except.ok.injEq, Prod.mk.injEq] at he
          obtain ⟨-, he2, -⟩ := he
          subst he2
          obtain ⟨hu, hcap, hlt⟩ := resize_ok_shape h a _ h1 a1 hres
          show a1.used + n ≤ a1.capacity
          calc a1.used + n ≤ a.used + n := by omega
            _ ≤ max (a.capacity * 2) (a.used + n) := le_max_right _ _
            _ = a1.capacity := hcap.symm
    · rw [if_neg hc] at he
      simp only [Except.ok.injEq, Prod.mk.injEq] at he
      obtain ⟨-, he2, -⟩ := he
      subst he2
      show a.used + n ≤ a.capacity
      omega
  · intro h a p n h' a' hinv he
    obtain ⟨-, he2⟩ := deallocate_ok_shape h a p n h' a' he
    subst he2
    exact hinv
  · intro h a nc h' a' he
    obtain ⟨hu, hcap, hlt⟩ := resize_ok_shape h a nc h' a' he
    show a'.used ≤ a'.capacity
    omega
  · intro h a hinv
    unfold CustomAllocator.clear
    split
    · exact hinv
    · exact Nat.zero_le _
  · intro h a p v hinv
    exact hinv
  · intro h a p hinv
    exact hinv

/-- Witness for C8: the invariant checked at concrete states: a fresh
allocator, the state produced by a concrete growing `allocate(1)` call, and
a concrete `clear`. -/
theorem claim_C8_witness :
    allocInv (CustomAllocator.new ⟨[], []⟩ 10).2
    ∧ allocInv (⟨Ptr.mk 1 0, 20, 1⟩ : CustomAllocator)
    ∧ allocInv (CustomAllocator.clear ⟨[List.replicate 10 none], []⟩
        ⟨Ptr.mk 0 0, 10, 4⟩).2 := by
  refine ⟨claim_C8_invariant_preserved.1 ⟨[], []⟩ 10, ?_, ?_⟩
  · exact claim_C8_invariant_preserved.2.1 ⟨[List.replicate 10 none], []⟩
      ⟨Ptr.mk 0 0, 10, 10⟩ 1 ⟨[List.replicate 10 none, List.replicate 20 none], [0]⟩
      ⟨Ptr.mk 1 0, 20, 1⟩ (Ptr.mk 1 0) rfl
  · exact claim_C8_invariant_preserved.2.2.2.2.1 ⟨[List.replicate 10 none], []⟩
      ⟨Ptr.mk 0 0, 10, 4⟩ (by decide)

/-- C5: from any state satisfying the allocator invariant, `allocate(n)`
succeeds; it obtains a new backing buffer (a growth step: the heap gains
exactly one block) if and only if `used + n > capacity`; on growth the new
capacity is `max(capacity * 2, used + n)` computed from the pre-growth
values, and without growth the heap is untouched and only `used` advances
by `n`. -/
theorem claim_C5_growth_condition (h : Heap) (a : CustomAllocator) (n : Nat)
    (hinv : allocInv a) :
    ∃ (h' : Heap) (a' : CustomAllocator) (p : Ptr),
      CustomAllocator.allocate h a n = Except.ok (h', a', p)
      ∧ (h'.blocks.length = h.blocks.length + 1 ↔ a.capacity < a.used + n)
      ∧ (a.capacity < a.used + n →
          a'.capacity = max (a.capacity * 2) (a.used + n))
      ∧ (a.used + n ≤ a.capacity →
          h' = h ∧ a' = { a with used := a.used + n } ∧ p = ptrAdd a.data a.used) := by
  by_cases hc : a.capacity < a.used + n
  · have hguard : ¬ (max (a.capacity * 2) (a.used + n) ≤ a.used) := by
      have hn : a.used < a.used + n := by
        have := hinv
        omega
      exact fun hle => absurd (le_trans (le_max_right _ _) hle) (by omega)
    have hres : ∃ (h1 : Heap) (a1 : CustomAllocator),
        CustomAllocator.resize h a (max (a.capacity * 2) (a.used + n))
          = Except.ok (h1, a1)
        ∧ h1.blocks.length = h.blocks.length + 1
        ∧ a1.capacity = max (a.capacity * 2) (a.used + n) := by
      unfold CustomAllocator.resize
      rw [if_neg hguard]
      refine ⟨_, _, rfl, ?_, rfl⟩
      simp only [opDelete_blocks, clear_fst_blocks_length, uninitMove_blocks_length,
        opNew_fst_blocks_length]
    obtain ⟨h1, a1, hres, hlen, hcap⟩ := hres
    refine ⟨h1, { a1 with used := a1.used + n }, ptrAdd a1.data a1.used, ?_, ?_, ?_, ?_⟩
    · unfold CustomAllocator.allocate
      rw [if_pos hc, hres]
    · exact iff_of_true hlen hc
    · intro _
      exact hcap
    · intro hle
      exact absurd hle (not_le.mpr hc)
  · refine ⟨h, { a with used := a.used + n }, ptrAdd a.data a.used, ?_, ?_, ?_, ?_⟩
    · unfold CustomAllocator.allocate
      rw [if_neg hc]
    · exact iff_of_false (by omega) hc
    · intro hcc
      exact absurd hcc hc
    · intro _
      exact ⟨rfl, rfl, rfl⟩

/-- Witness for C5 at a concrete growth-triggering input: a full capacity-10
allocator and a request for one more element. -/
theorem claim_C5_witness :
    ∃ (h' : Heap) (a' : CustomAllocator) (p : Ptr),
      CustomAllocator.allocate ⟨[List.replicate 10 none], []⟩ ⟨Ptr.mk 0 0, 10, 10⟩ 1
        = Except.ok (h', a', p)
      ∧ (h'.blocks.length = (⟨[List.replicate 10 none], []⟩ : Heap).blocks.length + 1
          ↔ (10 : Nat) < 10 + 1)
      ∧ ((10 : Nat) < 10 + 1 → a'.capacity = max (10 * 2) (10 + 1))
      ∧ ((10 : Nat) + 1 ≤ 10 →
          h' = ⟨[List.replicate 10 none], []⟩
          ∧ a' = ⟨Ptr.mk 0 0, 10, 10 + 1⟩
          ∧ p = ptrAdd (Ptr.mk 0 0) 10) :=
  claim_C5_growth_condition ⟨[List.replicate 10 none], []⟩ ⟨Ptr.mk 0 0, 10, 10⟩ 1
    (by decide)

/-- C1 fails on the code: after ten `allocate(1)` calls a fresh capacity-10
allocator has `used = 10`; the next `allocate(1)` triggers growth, and the
`clear()` call inside `resize` (main.cpp:76, main.cpp:89) resets `used_` to
0 before the cursor is advanced, so `used` ends at 1 instead of 10 + 1: the
relocation does not leave `used` unchanged and `used` does not increase by
`n`.  This theorem evaluates the code at that failing input. -/
theorem claim_C1_growth_resets_used :
    CustomAllocator.new ⟨[], []⟩ 10
      = (⟨[List.replicate 10 none], []⟩, ⟨Ptr.mk 0 0, 10, 0⟩)
    ∧ repeatAlloc ⟨[List.replicate 10 none], []⟩ ⟨Ptr.mk 0 0, 10, 0⟩ 10
      = Except.ok (⟨[List.replicate 10 none], []⟩, ⟨Ptr.mk 0 0, 10, 10⟩)
    ∧ (∃ (h' : Heap) (a' : CustomAllocator) (p : Ptr),
        CustomAllocator.allocate ⟨[List.replicate 10 none], []⟩ ⟨Ptr.mk 0 0, 10, 10⟩ 1
          = Except.ok (h', a', p)
        ∧ a'.used = 1 ∧ a'.used ≠ 10 + 1) := by
  refine ⟨rfl, rfl, ⟨[List.replicate 10 none, List.replicate 20 none], [0]⟩,
    ⟨Ptr.mk 1 0, 20, 1⟩, Ptr.mk 1 0, rfl, rfl, by decide⟩

/-- C2 fails on the code: appending 11 integers into a
`CustomContainer<int, CustomAllocator<int>>` of initial capacity 10 does
not succeed.  The first 10 appends work; the 11th triggers the container's
growth, the allocator relocates its buffer during `alloc_.allocate(20)`,
and `alloc_.deallocate(data_, capacity_)` (main.cpp:139) is then called on
the old, no-longer-owned pointer and throws the ownership error, which
propagates out of `push_back`.  This theorem evaluates the code at that
input. -/
theorem claim_C2_scenarioB_throws :
    mkCustomContainer ⟨[], []⟩ 10 = Except.ok (hInit10, cInitCustom)
    ∧ (pushMany customAllocOps hInit10 cInitCustom (intsUpTo 10)).succeeded = true
    ∧ (pushMany customAllocOps hInit10 cInitCustom (intsUpTo 11)).succeeded = false
    ∧ (pushMany customAllocOps hInit10 cInitCustom (intsUpTo 11)).errMsg
      = some "Attempted to deallocate memory not owned by allocator" :=
  ⟨rfl, rfl, rfl, rfl⟩

/-- C3 fails on the code: when the growth step inside the 11th append
fails (the `deallocate` ownership error above), the error does propagate to
the caller, but the container's observable state is not the pre-append
state: `clear()` (main.cpp:138, main.cpp:144-149) has already destroyed all
ten elements of the old buffer and reset `size_` to 0 before the growth
step failed.  This theorem evaluates the code at that failing input:
before the append `size` is 10 and iteration yields 0..9; after the failed
append the carried state has `size` 0 and every slot of the old buffer is
destroyed. -/
theorem claim_C3_growth_failure_not_atomic :
    (pushMany customAllocOps hInit10 cInitCustom (intsUpTo 10)).csize = 10
    ∧ (pushMany customAllocOps hInit10 cInitCustom (intsUpTo 10)).listed
      = (intsUpTo 10).map some
    ∧ (pushMany customAllocOps hInit10 cInitCustom (intsUpTo 11)).errMsg
      = some "Attempted to deallocate memory not owned by allocator"
    ∧ (pushMany customAllocOps hInit10 cInitCustom (intsUpTo 11)).csize = 0
    ∧ (pushMany customAllocOps hInit10 cInitCustom (intsUpTo 11)).ccap = 10
    ∧ ((pushMany customAllocOps hInit10 cInitCustom (intsUpTo 11)).heapOf.blocks.getD 0 [])
      = List.replicate 10 none :=
  ⟨rfl, rfl, rfl, rfl, rfl, rfl⟩

/-- C6 holds for the growth-free scenario A but fails in general: with the
default `std::allocator`, appending 0..9 into a default capacity-10
container succeeds with size 10, no growth, and iteration yields 0..9; but
appending an 11th value makes `resize` call `clear()` (main.cpp:138), which
resets `size_` to 0, so after 11 appends `size()` is 1 (not 11) and
iteration yields only the last value.  This theorem evaluates both runs. -/
theorem claim_C6_size_resets_on_growth :
    mkStdContainer ⟨[], []⟩ 10 = Except.ok (hInit10, cInitStd)
    ∧ (pushMany stdAllocOps hInit10 cInitStd (intsUpTo 10)).succeeded = true
    ∧ (pushMany stdAllocOps hInit10 cInitStd (intsUpTo 10)).csize = 10
    ∧ (pushMany stdAllocOps hInit10 cInitStd (intsUpTo 10)).ccap = 10
    ∧ (pushMany stdAllocOps hInit10 cInitStd (intsUpTo 10)).listed
      = (intsUpTo 10).map some
    ∧ (pushMany stdAllocOps hInit10 cInitStd (intsUpTo 11)).succeeded = true
    ∧ (pushMany stdAllocOps hInit10 cInitStd (intsUpTo 11)).csize = 1
    ∧ (pushMany stdAllocOps hInit10 cInitStd (intsUpTo 11)).csize ≠ 11
    ∧ (pushMany stdAllocOps hInit10 cInitStd (intsUpTo 11)).listed = [some 10] := by
  refine ⟨rfl, rfl, rfl, rfl, rfl, rfl, rfl, by decide, rfl⟩
